import Mathlib

/-!
Shallow embedding of the relay control core of the ESP32sWithRelaySwitch
repository (src/src/relay_service.c, src/src/http_controller.c,
src/include/config.h, src/include/relay_service.h).

Modelling conventions:
* Machine integers are `Nat`/`Int`; the `uint32_t` tick arithmetic of
  `debounce_check` is modelled with explicit `% 2^32`.
* The global mutable state of relay_service.c (the `relays` array, the
  `last_toggle_time` ledger, the LED flag) together with the observable
  effect trace we need (last GPIO level driven per relay, the NVS cell
  under NVS_KEY_RELAY_STATE, a persistence-write counter, an LED-pulse
  counter) is one explicit `ServiceState` record threaded through the
  functions.
* `xTaskGetTickCount() * portTICK_PERIOD_MS` is an input `now : Nat`
  (truncated to 32 bits where the C code does).
* NVS open/commit are modelled as an always-available key-value cell
  (`Option Nat`); storage-failure paths of nvs_open/nvs_set_u8 are not
  needed by any claim under verification.
-/

namespace RelayCtrl

/-- config.h: RELAY_COUNT. -/
abbrev RELAY_COUNT : Nat := 4

/-- config.h: RELAY_DEBOUNCE_MS. -/
def RELAY_DEBOUNCE_MS : Nat := 50

/-- config.h: RELAY_ACTIVE_LOW (1, i.e. enabled). -/
def RELAY_ACTIVE_LOW : Bool := true

/-- config.h: RELAY_PERSIST_STATE (1, i.e. enabled). -/
def RELAY_PERSIST_STATE : Bool := true

/-- Modulus of `uint32_t` arithmetic. -/
def UINT32_MOD : Nat := 2 ^ 32

/-- relay_service.h: relay_state_t (RELAY_OFF = 0, RELAY_ON = 1). -/
inductive relay_state where
  | RELAY_OFF
  | RELAY_ON
deriving DecidableEq, Fintype

open relay_state

/-- Numeric value of a relay_state_t when returned through `int`
(relay_toggle / relay_get_state return the enum value or -1). -/
def relay_state.toInt : relay_state → Int
  | RELAY_OFF => 0
  | RELAY_ON => 1

/-- config.h: RELAY_DEFAULT_STATE (0 = OFF, used to initialise `.state`
of every entry of the static `relays` array). -/
def RELAY_DEFAULT_STATE : relay_state := RELAY_OFF

/-- esp_err_t values that occur in the relay service. -/
inductive esp_err where
  | ESP_OK
  | ESP_ERR_INVALID_ARG
  | ESP_ERR_NVS_NOT_FOUND
deriving DecidableEq

/-- The mutable state of relay_service.c plus the observable effects the
claims speak about.

* `relays i` — `relays[i].state` (the static array's mutable field);
* `last_toggle_time i` — the debounce ledger `last_toggle_time[i]`;
* `driven_level i` — the level last passed to `gpio_set_level` for
  relay `i`'s pin (`none` if never driven);
* `nvs_relay_state` — the NVS cell under NVS_KEY_RELAY_STATE;
* `save_count` — number of completed relay_save_states calls
  (persistence writes);
* `blink_count` — number of completed blink_led pulse sequences;
* `led_init_done` — the `led_initialized` flag. -/
structure ServiceState where
  relays : Fin RELAY_COUNT → relay_state
  last_toggle_time : Fin RELAY_COUNT → Nat
  driven_level : Fin RELAY_COUNT → Option Nat
  nvs_relay_state : Option Nat
  save_count : Nat
  blink_count : Nat
  led_init_done : Bool

/-- The GPIO level apply_gpio_state drives for a logical state, through
the build-time polarity constant: with RELAY_ACTIVE_LOW, level 0 iff ON. -/
def gpio_level_for (s : relay_state) : Nat :=
  if RELAY_ACTIVE_LOW then (if s = RELAY_ON then 0 else 1)
  else (if s = RELAY_ON then 1 else 0)

/-- relay_service.c apply_gpio_state: guard `relay_id >= RELAY_COUNT`,
then drive the polarity-translated level onto the relay's pin. -/
def apply_gpio_state (relay_id : Nat) (st : ServiceState) : ServiceState :=
  if h : relay_id < RELAY_COUNT then
    { st with driven_level :=
        (Function.update st.driven_level ⟨relay_id, h⟩
          (some (gpio_level_for (st.relays ⟨relay_id, h⟩)))) }
  else st

/-- relay_service.c blink_led: no-op unless the LED was initialised,
otherwise one short blocking pulse sequence (counted as one pulse). -/
def blink_led (st : ServiceState) : ServiceState :=
  if st.led_init_done then { st with blink_count := st.blink_count + 1 } else st

/-- Wrapping `uint32_t` subtraction `a - b` (operands reduced mod 2^32). -/
def uint32_sub (a b : Nat) : Nat :=
  (a % UINT32_MOD + UINT32_MOD - b % UINT32_MOD) % UINT32_MOD

/-- relay_service.c debounce_check: false (and no ledger write) when
`now - last_toggle_time[relay_id] < RELAY_DEBOUNCE_MS` in uint32
arithmetic; otherwise records `now` in the ledger and returns true. -/
def debounce_check (now : Nat) (relay_id : Fin RELAY_COUNT) (st : ServiceState) :
    Bool × ServiceState :=
  let now32 := now % UINT32_MOD
  if uint32_sub now32 (st.last_toggle_time relay_id) < RELAY_DEBOUNCE_MS then
    (false, st)
  else
    (true, { st with last_toggle_time :=
        Function.update st.last_toggle_time relay_id now32 })

/-- relay_save_states' packing loop: one byte, bit i set iff relay i is ON. -/
def pack_states (relays : Fin RELAY_COUNT → relay_state) : Nat :=
  (List.finRange RELAY_COUNT).foldl
    (fun acc i => if relays i = RELAY_ON then acc ||| (1 <<< i.val) else acc) 0

/-- relay_service.c relay_save_states: pack all states into one value
and commit it under NVS_KEY_RELAY_STATE (NVS modelled as always open). -/
def relay_save_states (st : ServiceState) : esp_err × ServiceState :=
  let packed := pack_states st.relays
  (esp_err.ESP_OK,
   { st with nvs_relay_state := some packed, save_count := st.save_count + 1 })

/-- relay_service.c relay_load_states: read NVS_KEY_RELAY_STATE; if absent
return an error leaving every relay untouched, else unpack
`packed & (1 << i)` into each relay's state. -/
def relay_load_states (st : ServiceState) : esp_err × ServiceState :=
  match st.nvs_relay_state with
  | none => (esp_err.ESP_ERR_NVS_NOT_FOUND, st)
  | some packed =>
    (esp_err.ESP_OK,
     { st with relays := fun i =>
        if packed &&& (1 <<< i.val) ≠ 0 then RELAY_ON else RELAY_OFF })

/-- relay_service.c relay_toggle: -1 for an invalid id; a debounce-rejected
toggle returns the current state unchanged; an accepted toggle flips the
state, applies the GPIO level, blinks the LED, persists, and returns the
new state. -/
def relay_toggle (now : Nat) (relay_id : Nat) (st : ServiceState) :
    Int × ServiceState :=
  if h : relay_id < RELAY_COUNT then
    let i : Fin RELAY_COUNT := ⟨relay_id, h⟩
    match debounce_check now i st with
    | (false, st1) => (relay_state.toInt (st1.relays i), st1)
    | (true, st1) =>
      let st2 := { st1 with relays :=
        (Function.update st1.relays i
          (if st1.relays i = RELAY_ON then RELAY_OFF else RELAY_ON)) }
      let st3 := apply_gpio_state relay_id st2
      let st4 := blink_led st3
      let st5 := if RELAY_PERSIST_STATE then (relay_save_states st4).2 else st4
      (relay_state.toInt (st5.relays i), st5)
  else (-1, st)

/-- relay_service.c relay_set_state: ESP_ERR_INVALID_ARG for an invalid id;
otherwise unconditionally overwrite the state, apply the GPIO level, blink
the LED, persist, and return ESP_OK. No debounce ledger access. -/
def relay_set_state (relay_id : Nat) (s : relay_state) (st : ServiceState) :
    esp_err × ServiceState :=
  if h : relay_id < RELAY_COUNT then
    let i : Fin RELAY_COUNT := ⟨relay_id, h⟩
    let st1 := { st with relays := Function.update st.relays i s }
    let st2 := apply_gpio_state relay_id st1
    let st3 := blink_led st2
    let st4 := if RELAY_PERSIST_STATE then (relay_save_states st3).2 else st3
    (esp_err.ESP_OK, st4)
  else (esp_err.ESP_ERR_INVALID_ARG, st)

/-- relay_service.c relay_get_state: the state's numeric value, or -1 for
an invalid id; reads only. -/
def relay_get_state (relay_id : Nat) (st : ServiceState) : Int :=
  if h : relay_id < RELAY_COUNT then relay_state.toInt (st.relays ⟨relay_id, h⟩)
  else -1

/-- relay_service.c relay_all_off: loop i = 0..RELAY_COUNT-1 setting
`relays[i].state = RELAY_OFF` and applying the GPIO level, then one
relay_save_states call for the whole command. -/
def relay_all_off (st : ServiceState) : esp_err × ServiceState :=
  let st1 := (List.range RELAY_COUNT).foldl
    (fun acc i =>
      if h : i < RELAY_COUNT then
        apply_gpio_state i
          { acc with relays := Function.update acc.relays ⟨i, h⟩ RELAY_OFF }
      else acc) st
  let st2 := if RELAY_PERSIST_STATE then (relay_save_states st1).2 else st1
  (esp_err.ESP_OK, st2)

/-- relay_service.c relay_all_on: loop i = 0..RELAY_COUNT-1 setting
`relays[i].state = RELAY_ON` and applying the GPIO level, then one
relay_save_states call for the whole command. -/
def relay_all_on (st : ServiceState) : esp_err × ServiceState :=
  let st1 := (List.range RELAY_COUNT).foldl
    (fun acc i =>
      if h : i < RELAY_COUNT then
        apply_gpio_state i
          { acc with relays := Function.update acc.relays ⟨i, h⟩ RELAY_ON }
      else acc) st
  let st2 := if RELAY_PERSIST_STATE then (relay_save_states st1).2 else st1
  (esp_err.ESP_OK, st2)

/-- relay_service.c relay_service_init: initialise the LED, drive every
relay pin to level 1 while configuring it (open-drain, relay off), load the
persisted snapshot if present, then apply every relay's state to its pin. -/
def relay_service_init (st : ServiceState) : esp_err × ServiceState :=
  let st0 := { st with led_init_done := true }
  let st1 := (List.range RELAY_COUNT).foldl
    (fun acc i =>
      if h : i < RELAY_COUNT then
        { acc with driven_level := Function.update acc.driven_level ⟨i, h⟩ (some 1) }
      else acc) st0
  let st2 := if RELAY_PERSIST_STATE then (relay_load_states st1).2 else st1
  let st3 := (List.range RELAY_COUNT).foldl (fun acc i => apply_gpio_state i acc) st2
  (esp_err.ESP_OK, st3)

/-- The process state at entry to app_main: the static initialisers of
relay_service.c (default states, zeroed debounce ledger, LED flag clear,
no pin driven yet), with `nvs` the pre-existing flash content. -/
def boot_state (nvs : Option Nat) : ServiceState :=
  { relays := fun _ => RELAY_DEFAULT_STATE
  , last_toggle_time := fun _ => 0
  , driven_level := fun _ => none
  , nvs_relay_state := nvs
  , save_count := 0
  , blink_count := 0
  , led_init_done := false }

/-!
http_controller.c: the URI parser `extract_relay_id`. A C string is a
`List Char` (without the terminating NUL).
-/

/-- C `isspace` on the default locale, as consulted by `atoi`. -/
def c_isspace (c : Char) : Bool :=
  c == ' ' || c == '\t' || c == '\n' || c == '\x0b' || c == '\x0c' || c == '\r'

/-- Digit-accumulation loop of C `atoi`: consume leading decimal digits,
stop at the first non-digit. -/
def atoi_digits : List Char → Nat → Nat
  | [], acc => acc
  | c :: rest, acc =>
    if c.isDigit then atoi_digits rest (acc * 10 + (c.toNat - 48)) else acc

/-- C `atoi`: skip leading whitespace, honour one optional sign, then read
decimal digits; a string with no leading digits parses as 0. (Overflow is
undefined behaviour in C and irrelevant at the value range used here.) -/
def atoi (s : List Char) : Int :=
  match s.dropWhile c_isspace with
  | '-' :: rest => - (atoi_digits rest 0 : Int)
  | '+' :: rest => (atoi_digits rest 0 : Int)
  | t => (atoi_digits t 0 : Int)

/-- True iff the string starts with the 7 characters of "/relay/"
(the needle strstr scans for in extract_relay_id). -/
def matchesRelayPat (s : List Char) : Bool :=
  match s with
  | c0 :: c1 :: c2 :: c3 :: c4 :: c5 :: c6 :: _ =>
    c0 == '/' && c1 == 'r' && c2 == 'e' && c3 == 'l' && c4 == 'a' && c5 == 'y' && c6 == '/'
  | _ => false

/-- C `strstr(uri, "/relay/")`: the suffix of `uri` beginning at the first
occurrence of "/relay/", or `none`. -/
def strstr_relay : List Char → Option (List Char)
  | [] => none
  | c :: rest =>
    if matchesRelayPat (c :: rest) then some (c :: rest) else strstr_relay rest

/-- C `strncmp(p, "all", 3) == 0`: the first three characters of `p` are
"all" (false when `p` ends before three characters, since the NUL then
mismatches). -/
def strncmp_all (p : List Char) : Bool :=
  match p with
  | a :: b :: c :: _ => a == 'a' && b == 'l' && c == 'l'
  | _ => false

/-- The seven characters "/relay/" skipped by `p += 7`. -/
def relayPat : List Char := ['/', 'r', 'e', 'l', 'a', 'y', '/']

/-- http_controller.c extract_relay_id: locate "/relay/", skip it, map a
leading "all" to -2 (target All); otherwise `atoi` the id segment and
return it if it lies in [0, RELAY_COUNT), else -1 (invalid target). -/
def extract_relay_id (uri : List Char) : Int :=
  match strstr_relay uri with
  | none => -1
  | some q =>
    let p := q.drop 7
    if strncmp_all p then -2
    else
      let id := atoi p
      if id < 0 || (RELAY_COUNT : Int) ≤ id then -1 else id

/-!
Helper lemmas shared by several theorems.
-/

/-- A toggle whose debounce test fails leaves the whole service state
untouched and returns the current state's numeric value. -/
theorem toggle_rejected_eq (now relay_id : Nat) (st : ServiceState)
    (h : relay_id < RELAY_COUNT)
    (hdeb : uint32_sub (now % UINT32_MOD) (st.last_toggle_time ⟨relay_id, h⟩)
      < RELAY_DEBOUNCE_MS) :
    relay_toggle now relay_id st =
      (relay_state.toInt (st.relays ⟨relay_id, h⟩), st) := by
  have hd : debounce_check now ⟨relay_id, h⟩ st = (false, st) := by
    unfold debounce_check
    simp [hdeb]
  simp only [relay_toggle, dif_pos h, hd]

/-- The numeric value of a relay state is 0 or 1, never the error -1. -/
theorem relay_state_toInt_ne_neg_one (s : relay_state) :
    relay_state.toInt s ≠ -1 := by
  cases s <;> simp [relay_state.toInt]

/-- After relay_service_init on the pristine boot state with empty flash,
the debounce ledger is still all-zero. -/
theorem init_boot_ledger_zero :
    ((relay_service_init (boot_state none)).2).last_toggle_time = fun _ => 0 := rfl

/-- After relay_service_init on the pristine boot state with empty flash,
every relay still holds the build-time default state. -/
theorem init_boot_relays_default :
    ((relay_service_init (boot_state none)).2).relays = fun _ => RELAY_DEFAULT_STATE := rfl

/-- blink_led only touches the pulse counter: the relay states survive. -/
@[simp] theorem blink_led_relays (st : ServiceState) :
    (blink_led st).relays = st.relays := by
  unfold blink_led; split <;> rfl

/-- blink_led only touches the pulse counter: the ledger survives. -/
@[simp] theorem blink_led_ledger (st : ServiceState) :
    (blink_led st).last_toggle_time = st.last_toggle_time := by
  unfold blink_led; split <;> rfl

/-- blink_led only touches the pulse counter: the driven levels survive. -/
@[simp] theorem blink_led_driven (st : ServiceState) :
    (blink_led st).driven_level = st.driven_level := by
  unfold blink_led; split <;> rfl

/-- blink_led only touches the pulse counter: the NVS cell survives. -/
@[simp] theorem blink_led_nvs (st : ServiceState) :
    (blink_led st).nvs_relay_state = st.nvs_relay_state := by
  unfold blink_led; split <;> rfl

/-- blink_led only touches the pulse counter: the save counter survives. -/
@[simp] theorem blink_led_saves (st : ServiceState) :
    (blink_led st).save_count = st.save_count := by
  unfold blink_led; split <;> rfl

/-- The physical-line agreement predicate of the spec's Relay invariant:
every relay's last driven GPIO level is exactly its logical state mapped
through the build-time polarity. -/
def gpio_matches (st : ServiceState) : Prop :=
  ∀ i, st.driven_level i = some (gpio_level_for (st.relays i))

/-- Applying the GPIO level of every relay in index order establishes the
physical-line agreement, whatever the prior driven levels were. -/
theorem apply_all_establishes (st : ServiceState) :
    gpio_matches
      ((List.range RELAY_COUNT).foldl (fun acc i => apply_gpio_state i acc) st) := by
  have hrange : List.range RELAY_COUNT = [0, 1, 2, 3] := rfl
  intro i
  fin_cases i <;>
    simp +decide [hrange, apply_gpio_state, Function.update]

/-!
Claim theorems.
-/

/-- C1: for a valid relay index, a toggle arriving before the debounce
window has elapsed since the last accepted toggle changes nothing — the
relay's logical state, its ledger entry and all other relays are left
exactly as they were — and the command returns the current (unchanged)
state as a success value, not the -1 error. -/
theorem toggle_rejected_noop (now relay_id : Nat) (st : ServiceState)
    (h : relay_id < RELAY_COUNT)
    (hdeb : uint32_sub (now % UINT32_MOD) (st.last_toggle_time ⟨relay_id, h⟩)
      < RELAY_DEBOUNCE_MS) :
    relay_toggle now relay_id st =
      (relay_state.toInt (st.relays ⟨relay_id, h⟩), st) ∧
    relay_state.toInt (st.relays ⟨relay_id, h⟩) ≠ -1 :=
  ⟨toggle_rejected_eq now relay_id st h hdeb,
   relay_state_toInt_ne_neg_one _⟩

/-- Witness for C1 at a concrete input: toggling relay 0 of the boot state
at tick-time 10 is debounce-rejected and a no-op. -/
theorem toggle_rejected_noop_witness :
    (relay_toggle 10 0 (boot_state none) =
      (relay_state.toInt ((boot_state none).relays ⟨0, by decide⟩), boot_state none) ∧
     relay_state.toInt ((boot_state none).relays ⟨0, by decide⟩) ≠ -1) :=
  toggle_rejected_noop 10 0 (boot_state none) (by decide) (by decide)

/-- C2: for a valid relay index, a toggle arriving once at least the
debounce window has elapsed since the last accepted toggle flips the
relay's logical state, records the (32-bit) current time in its ledger
entry, drives the flipped state's GPIO level, performs one persistence
write of the packed states, and returns the flipped state's value. -/
theorem toggle_accepted_flips (now relay_id : Nat) (st : ServiceState)
    (h : relay_id < RELAY_COUNT)
    (hdeb : RELAY_DEBOUNCE_MS ≤
      uint32_sub (now % UINT32_MOD) (st.last_toggle_time ⟨relay_id, h⟩)) :
    (relay_toggle now relay_id st).1 = relay_state.toInt
      (if st.relays ⟨relay_id, h⟩ = RELAY_ON then RELAY_OFF else RELAY_ON) ∧
    (relay_toggle now relay_id st).2.relays ⟨relay_id, h⟩ =
      (if st.relays ⟨relay_id, h⟩ = RELAY_ON then RELAY_OFF else RELAY_ON) ∧
    (relay_toggle now relay_id st).2.last_toggle_time ⟨relay_id, h⟩ =
      now % UINT32_MOD ∧
    (relay_toggle now relay_id st).2.driven_level ⟨relay_id, h⟩ = some
      (gpio_level_for
        (if st.relays ⟨relay_id, h⟩ = RELAY_ON then RELAY_OFF else RELAY_ON)) ∧
    (relay_toggle now relay_id st).2.save_count = st.save_count + 1 ∧
    (relay_toggle now relay_id st).2.nvs_relay_state =
      some (pack_states ((relay_toggle now relay_id st).2.relays)) := by
  have hd : debounce_check now ⟨relay_id, h⟩ st =
      (true, { st with last_toggle_time :=
        Function.update st.last_toggle_time ⟨relay_id, h⟩ (now % UINT32_MOD) }) := by
    unfold debounce_check
    simp [Nat.not_lt.mpr hdeb]
  simp only [relay_toggle, dif_pos h, hd]
  simp [apply_gpio_state, dif_pos h, relay_save_states, RELAY_PERSIST_STATE,
    Function.update_same]

/-- Witness for C2 at a concrete input: toggling relay 1 of the boot state
at tick-time 60 is accepted and turns it ON. -/
theorem toggle_accepted_flips_witness :
    ((relay_toggle 60 1 (boot_state none)).1 = relay_state.toInt
      (if (boot_state none).relays ⟨1, by decide⟩ = relay_state.RELAY_ON
        then relay_state.RELAY_OFF else relay_state.RELAY_ON) ∧
    (relay_toggle 60 1 (boot_state none)).2.relays ⟨1, by decide⟩ =
      (if (boot_state none).relays ⟨1, by decide⟩ = relay_state.RELAY_ON
        then relay_state.RELAY_OFF else relay_state.RELAY_ON) ∧
    (relay_toggle 60 1 (boot_state none)).2.last_toggle_time ⟨1, by decide⟩ =
      60 % UINT32_MOD ∧
    (relay_toggle 60 1 (boot_state none)).2.driven_level ⟨1, by decide⟩ = some
      (gpio_level_for
        (if (boot_state none).relays ⟨1, by decide⟩ = relay_state.RELAY_ON
          then relay_state.RELAY_OFF else relay_state.RELAY_ON)) ∧
    (relay_toggle 60 1 (boot_state none)).2.save_count =
      (boot_state none).save_count + 1 ∧
    (relay_toggle 60 1 (boot_state none)).2.nvs_relay_state =
      some (pack_states ((relay_toggle 60 1 (boot_state none)).2.relays))) :=
  toggle_accepted_flips 60 1 (boot_state none) (by decide) (by decide)

/-- C5: every command addressed to an index `i ≥ RELAY_COUNT` returns its
error value (-1 for toggle and get, ESP_ERR_INVALID_ARG for set) and
leaves the whole state — relays, ledger, NVS, counters — unchanged. -/
theorem invalid_target_noop (now relay_id : Nat) (s : relay_state) (st : ServiceState)
    (hid : RELAY_COUNT ≤ relay_id) :
    relay_toggle now relay_id st = (-1, st) ∧
    relay_set_state relay_id s st = (esp_err.ESP_ERR_INVALID_ARG, st) ∧
    relay_get_state relay_id st = -1 := by
  have h : ¬ relay_id < RELAY_COUNT := Nat.not_lt.mpr hid
  refine ⟨?_, ?_, ?_⟩ <;>
    simp [relay_toggle, relay_set_state, relay_get_state, h]

/-- Witness for C5 at a concrete input: index 7 with all three commands. -/
theorem invalid_target_noop_witness :
    (relay_toggle 99 7 (boot_state none) = (-1, boot_state none) ∧
     relay_set_state 7 relay_state.RELAY_ON (boot_state none) =
       (esp_err.ESP_ERR_INVALID_ARG, boot_state none) ∧
     relay_get_state 7 (boot_state none) = -1) :=
  invalid_target_noop 99 7 relay_state.RELAY_ON (boot_state none) (by decide)

/-- C3: relay_set_state bypasses the debounce ledger — it never writes it,
and neither its result nor the resulting relay states depend on it — sets
the relay to the requested state regardless of the prior state, and is
idempotent: two consecutive calls with the same state both return ESP_OK
(there is no debounce-rejection path) and both leave the relay in that
state. -/
theorem set_state_bypasses_debounce (relay_id : Nat) (s : relay_state)
    (st : ServiceState) (h : relay_id < RELAY_COUNT) :
    (relay_set_state relay_id s st).2.last_toggle_time = st.last_toggle_time ∧
    (∀ f, (relay_set_state relay_id s { st with last_toggle_time := f }).1 =
            (relay_set_state relay_id s st).1 ∧
          (relay_set_state relay_id s { st with last_toggle_time := f }).2.relays =
            (relay_set_state relay_id s st).2.relays) ∧
    (relay_set_state relay_id s st).2.relays ⟨relay_id, h⟩ = s ∧
    (relay_set_state relay_id s st).1 = esp_err.ESP_OK ∧
    (relay_set_state relay_id s ((relay_set_state relay_id s st).2)).1 =
      esp_err.ESP_OK ∧
    (relay_set_state relay_id s
      ((relay_set_state relay_id s st).2)).2.relays ⟨relay_id, h⟩ = s := by
  simp [relay_set_state, dif_pos h, apply_gpio_state, relay_save_states,
    RELAY_PERSIST_STATE, Function.update_same]

/-- Witness for C3 at a concrete input: setting relay 2 of the boot state
to ON. -/
theorem set_state_bypasses_debounce_witness :
    ((relay_set_state 2 relay_state.RELAY_ON (boot_state none)).2.last_toggle_time =
      (boot_state none).last_toggle_time ∧
    (∀ f, (relay_set_state 2 relay_state.RELAY_ON
            { boot_state none with last_toggle_time := f }).1 =
          (relay_set_state 2 relay_state.RELAY_ON (boot_state none)).1 ∧
          (relay_set_state 2 relay_state.RELAY_ON
            { boot_state none with last_toggle_time := f }).2.relays =
          (relay_set_state 2 relay_state.RELAY_ON (boot_state none)).2.relays) ∧
    (relay_set_state 2 relay_state.RELAY_ON (boot_state none)).2.relays
      ⟨2, by decide⟩ = relay_state.RELAY_ON ∧
    (relay_set_state 2 relay_state.RELAY_ON (boot_state none)).1 =
      esp_err.ESP_OK ∧
    (relay_set_state 2 relay_state.RELAY_ON
      ((relay_set_state 2 relay_state.RELAY_ON (boot_state none)).2)).1 =
      esp_err.ESP_OK ∧
    (relay_set_state 2 relay_state.RELAY_ON
      ((relay_set_state 2 relay_state.RELAY_ON (boot_state none)).2)).2.relays
      ⟨2, by decide⟩ = relay_state.RELAY_ON) :=
  set_state_bypasses_debounce 2 relay_state.RELAY_ON (boot_state none) (by decide)

/-- Unpacking bit i of the packed bitmask recovers relay i's state, for
every assignment of the RELAY_COUNT relay states. -/
theorem pack_unpack : ∀ r : Fin RELAY_COUNT → relay_state, ∀ i : Fin RELAY_COUNT,
    (if pack_states r &&& (1 <<< i.val) ≠ 0 then relay_state.RELAY_ON
     else relay_state.RELAY_OFF) = r i := by decide

/-- C4: save followed by load round-trips: for every assignment of the N
relay states, packing them into the bitmask, storing it, and loading from
any state holding that stored snapshot restores exactly the same state for
every relay index. -/
theorem save_load_roundtrip (st st' : ServiceState)
    (hsnap : st'.nvs_relay_state = ((relay_save_states st).2).nvs_relay_state) :
    ∀ i, ((relay_load_states st').2).relays i = st.relays i := by
  intro i
  have hs : st'.nvs_relay_state = some (pack_states st.relays) := by
    simpa [relay_save_states] using hsnap
  simp only [relay_load_states, hs]
  exact pack_unpack st.relays i

/-- Witness for C4 at a concrete input: save from a state with relays 0 and
3 ON, load into the fresh boot state carrying that snapshot. -/
theorem save_load_roundtrip_witness :
    ((relay_load_states
        { boot_state
            ((relay_save_states
              { boot_state none with relays := fun i =>
                  if i.val = 0 ∨ i.val = 3 then relay_state.RELAY_ON
                  else relay_state.RELAY_OFF }).2).nvs_relay_state with
          relays := fun _ => RELAY_DEFAULT_STATE }).2).relays ⟨3, by decide⟩ =
      relay_state.RELAY_ON ∧
    ((relay_load_states
        { boot_state
            ((relay_save_states
              { boot_state none with relays := fun i =>
                  if i.val = 0 ∨ i.val = 3 then relay_state.RELAY_ON
                  else relay_state.RELAY_OFF }).2).nvs_relay_state with
          relays := fun _ => RELAY_DEFAULT_STATE }).2).relays ⟨1, by decide⟩ =
      relay_state.RELAY_OFF :=
  ⟨save_load_roundtrip
    { boot_state none with relays := fun i =>
        if i.val = 0 ∨ i.val = 3 then relay_state.RELAY_ON
        else relay_state.RELAY_OFF }
    { boot_state
        ((relay_save_states
          { boot_state none with relays := fun i =>
              if i.val = 0 ∨ i.val = 3 then relay_state.RELAY_ON
              else relay_state.RELAY_OFF }).2).nvs_relay_state with
      relays := fun _ => RELAY_DEFAULT_STATE }
    rfl ⟨3, by decide⟩,
   save_load_roundtrip
    { boot_state none with relays := fun i =>
        if i.val = 0 ∨ i.val = 3 then relay_state.RELAY_ON
        else relay_state.RELAY_OFF }
    { boot_state
        ((relay_save_states
          { boot_state none with relays := fun i =>
              if i.val = 0 ∨ i.val = 3 then relay_state.RELAY_ON
              else relay_state.RELAY_OFF }).2).nvs_relay_state with
      relays := fun _ => RELAY_DEFAULT_STATE }
    rfl ⟨1, by decide⟩⟩

/-- C6: a bulk command sets all N relays (relay_all_on to ON, relay_all_off
to OFF), drives all N GPIO levels, performs exactly one persistence write
for the whole command, and afterwards reading any relay reports the bulk
state. -/
theorem bulk_set_all_single_persist (st : ServiceState) :
    ((relay_all_on st).1 = esp_err.ESP_OK ∧
     (∀ i : Fin RELAY_COUNT, ((relay_all_on st).2).relays i = relay_state.RELAY_ON) ∧
     (∀ i : Fin RELAY_COUNT, ((relay_all_on st).2).driven_level i =
        some (gpio_level_for relay_state.RELAY_ON)) ∧
     ((relay_all_on st).2).save_count = st.save_count + 1 ∧
     (∀ i : Fin RELAY_COUNT, relay_get_state i.val ((relay_all_on st).2) =
        relay_state.toInt relay_state.RELAY_ON)) ∧
    ((relay_all_off st).1 = esp_err.ESP_OK ∧
     (∀ i : Fin RELAY_COUNT, ((relay_all_off st).2).relays i = relay_state.RELAY_OFF) ∧
     (∀ i : Fin RELAY_COUNT, ((relay_all_off st).2).driven_level i =
        some (gpio_level_for relay_state.RELAY_OFF)) ∧
     ((relay_all_off st).2).save_count = st.save_count + 1 ∧
     (∀ i : Fin RELAY_COUNT, relay_get_state i.val ((relay_all_off st).2) =
        relay_state.toInt relay_state.RELAY_OFF)) := by
  have hrange : List.range RELAY_COUNT = [0, 1, 2, 3] := rfl
  refine ⟨⟨rfl, ?_, ?_, ?_, ?_⟩, ⟨rfl, ?_, ?_, ?_, ?_⟩⟩ <;>
    first
    | (intro i
       fin_cases i <;>
         simp +decide [relay_all_on, relay_all_off, relay_get_state, hrange,
           apply_gpio_state, relay_save_states, RELAY_PERSIST_STATE,
           Function.update, relay_state.toInt])
    | simp +decide [relay_all_on, relay_all_off, hrange, apply_gpio_state,
        relay_save_states, RELAY_PERSIST_STATE, Function.update]

/-- C7: one build-time polarity mapping — active-low, so driven level 0
iff logically ON — is shared by every relay, and each relay's logical
state matches the level last driven to its line: the agreement holds after
relay_service_init and is preserved by every operation (toggle whether
accepted or rejected, single set, bulk all-on/all-off, save; get does not
touch the state). -/
theorem gpio_polarity_invariant :
    (∀ s, (gpio_level_for s = 0 ↔ s = relay_state.RELAY_ON)) ∧
    (∀ st, gpio_matches (relay_service_init st).2) ∧
    (∀ now relay_id st, gpio_matches st →
      gpio_matches (relay_toggle now relay_id st).2) ∧
    (∀ relay_id s st, gpio_matches st →
      gpio_matches (relay_set_state relay_id s st).2) ∧
    (∀ st, gpio_matches (relay_all_on st).2) ∧
    (∀ st, gpio_matches (relay_all_off st).2) ∧
    (∀ st, gpio_matches st → gpio_matches (relay_save_states st).2) := by
  have hrange : List.range RELAY_COUNT = [0, 1, 2, 3] := rfl
  refine ⟨?_, ?_, ?_, ?_, ?_, ?_, ?_⟩
  · intro s
    cases s <;> simp [gpio_level_for, RELAY_ACTIVE_LOW]
  · intro st
    exact apply_all_establishes _
  · intro now relay_id st hm
    by_cases h : relay_id < RELAY_COUNT
    · by_cases hdeb : uint32_sub (now % UINT32_MOD)
          (st.last_toggle_time ⟨relay_id, h⟩) < RELAY_DEBOUNCE_MS
      · rw [toggle_rejected_eq now relay_id st h hdeb]
        exact hm
      · have hd : debounce_check now ⟨relay_id, h⟩ st =
            (true, { st with last_toggle_time :=
              Function.update st.last_toggle_time ⟨relay_id, h⟩ (now % UINT32_MOD) }) := by
          unfold debounce_check
          simp [hdeb]
        intro j
        by_cases hj : j = ⟨relay_id, h⟩
        · subst hj
          simp [relay_toggle, dif_pos h, hd, apply_gpio_state,
            relay_save_states, RELAY_PERSIST_STATE, Function.update_same]
        · simp [relay_toggle, dif_pos h, hd, apply_gpio_state,
            relay_save_states, RELAY_PERSIST_STATE, Function.update_noteq hj,
            hm j]
    · simp only [relay_toggle, dif_neg h]
      exact hm
  · intro relay_id s st hm
    by_cases h : relay_id < RELAY_COUNT
    · intro j
      by_cases hj : j = ⟨relay_id, h⟩
      · subst hj
        simp [relay_set_state, dif_pos h, apply_gpio_state,
          relay_save_states, RELAY_PERSIST_STATE, Function.update_same]
      · simp [relay_set_state, dif_pos h, apply_gpio_state,
          relay_save_states, RELAY_PERSIST_STATE, Function.update_noteq hj,
          hm j]
    · simp only [relay_set_state, dif_neg h]
      exact hm
  · intro st i
    fin_cases i <;>
      simp +decide [relay_all_on, hrange, apply_gpio_state,
        relay_save_states, RELAY_PERSIST_STATE, Function.update]
  · intro st i
    fin_cases i <;>
      simp +decide [relay_all_off, hrange, apply_gpio_state,
        relay_save_states, RELAY_PERSIST_STATE, Function.update]
  · intro st hm j
    simpa [relay_save_states] using hm j

/-- Witness for C7 at a concrete input: the agreement holds after an
accepted toggle of relay 1 on the freshly initialised boot state. -/
theorem gpio_polarity_invariant_witness :
    gpio_matches ((relay_toggle 60 1 ((relay_service_init (boot_state none)).2)).2) :=
  gpio_polarity_invariant.2.2.1 60 1 ((relay_service_init (boot_state none)).2)
    (by intro i; fin_cases i <;> rfl)

/-- C10: the ledger boots all-zero and debounce compares tick-time against
it, so the very first toggle of any relay, issued earlier than
RELAY_DEBOUNCE_MS after boot, is rejected as debounced and returns the
unchanged build-time default state — although no toggle was ever accepted. -/
theorem first_toggle_after_boot_rejected (now relay_id : Nat)
    (hid : relay_id < RELAY_COUNT)
    (hnow : now % UINT32_MOD < RELAY_DEBOUNCE_MS) :
    relay_toggle now relay_id ((relay_service_init (boot_state none)).2) =
      (relay_state.toInt RELAY_DEFAULT_STATE,
       (relay_service_init (boot_state none)).2) := by
  have hz : ((relay_service_init (boot_state none)).2).last_toggle_time
      ⟨relay_id, hid⟩ = 0 := congrFun init_boot_ledger_zero _
  have hsub : uint32_sub (now % UINT32_MOD)
      (((relay_service_init (boot_state none)).2).last_toggle_time ⟨relay_id, hid⟩)
      < RELAY_DEBOUNCE_MS := by
    rw [hz]
    simp only [uint32_sub, UINT32_MOD, RELAY_DEBOUNCE_MS] at hnow ⊢
    omega
  have := toggle_rejected_eq now relay_id _ hid hsub
  rw [this, congrFun init_boot_relays_default]

/-- Witness for C10 at a concrete input: the first toggle of relay 2 at
tick-time 10 after a fresh boot is rejected with the default state. -/
theorem first_toggle_after_boot_rejected_witness :
    relay_toggle 10 2 ((relay_service_init (boot_state none)).2) =
      (relay_state.toInt RELAY_DEFAULT_STATE,
       (relay_service_init (boot_state none)).2) :=
  first_toggle_after_boot_rejected 10 2 (by decide) (by decide)

/-- Counterexample to C8 as stated: after initialisation (so the LED is
ready to pulse), the bulk all-on command — a successful state-changing
mutation — completes without running the status-indicator pulse. -/
theorem blink_skipped_on_bulk_counterexample :
    ((relay_service_init (boot_state none)).2).led_init_done = true ∧
    ((relay_all_on ((relay_service_init (boot_state none)).2)).2).blink_count =
      ((relay_service_init (boot_state none)).2).blink_count :=
  ⟨rfl, rfl⟩

/-- C8 (amended): with the LED initialised, the status-indicator pulse
runs after an accepted toggle and after an explicit single-relay set,
never runs on a toggle rejected by debounce, and also does not run on the
bulk all-on/all-off commands. -/
theorem blink_on_mutations (now relay_id : Nat) (s : relay_state)
    (st : ServiceState) (h : relay_id < RELAY_COUNT)
    (hled : st.led_init_done = true) :
    (RELAY_DEBOUNCE_MS ≤
        uint32_sub (now % UINT32_MOD) (st.last_toggle_time ⟨relay_id, h⟩) →
      (relay_toggle now relay_id st).2.blink_count = st.blink_count + 1) ∧
    (uint32_sub (now % UINT32_MOD) (st.last_toggle_time ⟨relay_id, h⟩)
        < RELAY_DEBOUNCE_MS →
      (relay_toggle now relay_id st).2.blink_count = st.blink_count) ∧
    (relay_set_state relay_id s st).2.blink_count = st.blink_count + 1 ∧
    (relay_all_on st).2.blink_count = st.blink_count ∧
    (relay_all_off st).2.blink_count = st.blink_count := by
  have hrange : List.range RELAY_COUNT = [0, 1, 2, 3] := rfl
  refine ⟨?_, ?_, ?_, ?_, ?_⟩
  · intro hdeb
    have hd : debounce_check now ⟨relay_id, h⟩ st =
        (true, { st with last_toggle_time :=
          Function.update st.last_toggle_time ⟨relay_id, h⟩ (now % UINT32_MOD) }) := by
      unfold debounce_check
      simp [Nat.not_lt.mpr hdeb]
    simp [relay_toggle, dif_pos h, hd, apply_gpio_state, blink_led, hled,
      relay_save_states, RELAY_PERSIST_STATE]
  · intro hdeb
    rw [toggle_rejected_eq now relay_id st h hdeb]
  · simp [relay_set_state, dif_pos h, apply_gpio_state, blink_led, hled,
      relay_save_states, RELAY_PERSIST_STATE]
  · simp +decide [relay_all_on, hrange, apply_gpio_state,
      relay_save_states, RELAY_PERSIST_STATE]
  · simp +decide [relay_all_off, hrange, apply_gpio_state,
      relay_save_states, RELAY_PERSIST_STATE]

/-- Witness for C8 (amended) at a concrete input: relay 3 of the freshly
initialised boot state, toggle at tick-time 60 and set to OFF. -/
theorem blink_on_mutations_witness :
    ((RELAY_DEBOUNCE_MS ≤
        uint32_sub (60 % UINT32_MOD)
          (((relay_service_init (boot_state none)).2).last_toggle_time ⟨3, by decide⟩) →
      (relay_toggle 60 3 ((relay_service_init (boot_state none)).2)).2.blink_count =
        ((relay_service_init (boot_state none)).2).blink_count + 1) ∧
    (uint32_sub (60 % UINT32_MOD)
        (((relay_service_init (boot_state none)).2).last_toggle_time ⟨3, by decide⟩)
        < RELAY_DEBOUNCE_MS →
      (relay_toggle 60 3 ((relay_service_init (boot_state none)).2)).2.blink_count =
        ((relay_service_init (boot_state none)).2).blink_count) ∧
    (relay_set_state 3 relay_state.RELAY_OFF
      ((relay_service_init (boot_state none)).2)).2.blink_count =
      ((relay_service_init (boot_state none)).2).blink_count + 1 ∧
    (relay_all_on ((relay_service_init (boot_state none)).2)).2.blink_count =
      ((relay_service_init (boot_state none)).2).blink_count ∧
    (relay_all_off ((relay_service_init (boot_state none)).2)).2.blink_count =
      ((relay_service_init (boot_state none)).2).blink_count) :=
  blink_on_mutations 60 3 relay_state.RELAY_OFF
    ((relay_service_init (boot_state none)).2) (by decide) rfl

/-- The URI "/relay/x/toggle", whose id segment is non-numeric. -/
def uriNonNumeric : List Char :=
  ['/', 'r', 'e', 'l', 'a', 'y', '/', 'x', '/', 't', 'o', 'g', 'g', 'l', 'e']

/-- Counterexample to C9 as stated: the non-numeric id segment "x" does
not yield the InvalidTarget value -1 — `atoi` parses it as 0, so the
parser selects relay 0. -/
theorem extract_relay_id_nonnumeric_counterexample :
    extract_relay_id uriNonNumeric = 0 ∧ (0 : Int) ≠ -1 := by
  refine ⟨?_, by decide⟩
  decide

/-- C9 (amended): for a URI beginning with "/relay/", an id segment whose
first three characters are "all" selects the All target (-2); any other
segment is read by `atoi`, and the relay with that number is selected when
it lies in [0, RELAY_COUNT) — in particular a non-numeric segment reads as
0 and selects relay 0 — while only an atoi value outside [0, RELAY_COUNT)
yields the InvalidTarget value -1. -/
theorem extract_relay_id_amended (tail : List Char) :
    extract_relay_id (relayPat ++ tail) =
      (if strncmp_all tail then -2
       else if atoi tail < 0 || (RELAY_COUNT : Int) ≤ atoi tail then -1
       else atoi tail) := by
  have h1 : strstr_relay (relayPat ++ tail) = some (relayPat ++ tail) := by
    simp [relayPat, strstr_relay, matchesRelayPat]
  simp only [relayPat, List.cons_append, List.nil_append] at h1
  simp [extract_relay_id, h1, relayPat]

end RelayCtrl
